import Mathlib

/-!
Verification of the multi-image upload component
(`src/components/multi-image-upload.tsx` and its sibling variant, here called
`part_001`, plus `src/api/upload-api.ts`).

The orchestrator's state is the React `files : UploadedFile[]` array.  All
state mutations go through `setFiles` updaters on the single-threaded event
loop, so each updater is modelled as a pure function
`List UploadedFile → List UploadedFile`; handlers that also issue gateway
requests additionally return the list of locators passed to the gateway call.
Environment-supplied values (`Date.now()`, `Math.random()`,
`URL.createObjectURL`) are passed in as parameters.
-/

namespace MultiImageUpload

/-- The `UploadedFile` record of the component (`part_001` lines 20-28):
`id`, display `url`, `deleteUrl`, `progress`, `fileType`, `isUploading`,
`isDeleting`.  The older variant in `src/components/multi-image-upload.tsx`
has the same fields minus `isDeleting`; its operations below simply never
touch that field. -/
structure UploadedFile where
  id : String
  url : String
  deleteUrl : String
  progress : Int
  fileType : String
  isUploading : Bool
  isDeleting : Bool
  deriving DecidableEq

/-- An incoming DOM `File`: we only ever read `file.name` and `file.type`
(the declared MIME type, renamed `fileType` here). -/
structure BrowserFile where
  name : String
  fileType : String
  deriving DecidableEq

/-- `file.type.startsWith("image/")` (`part_001` line 156). -/
def isImageType (t : String) : Bool := t.startsWith "image/"

/-- Preview locator for a freshly added file (`part_001` lines 157-159):
an object URL for images (the `createURL` parameter stands for
`URL.createObjectURL`), the generic placeholder path otherwise. -/
def previewFor (createURL : BrowserFile → String) (f : BrowserFile) : String :=
  if isImageType f.fileType then createURL f else "/file-icon-placeholder.png"

/-- The entry appended for an accepted file (`part_001` lines 161-169):
phase uploading, progress 0, empty `deleteUrl`. -/
def mkNewEntry (freshId : String) (preview : String) (f : BrowserFile) : UploadedFile :=
  { id := freshId
    url := preview
    deleteUrl := ""
    progress := 0
    fileType := f.fileType
    isUploading := true
    isDeleting := false }

/-- JavaScript `arr.splice(start)` with the delete-count omitted removes every
element from the normalized start index onward; what remains of `arr` is its
prefix of length `start` clamped into `[0, arr.length]`, counting from the end
when `start` is negative.  `spliceTruncate batch start` is that remaining
prefix (`part_001` line 149). -/
def spliceTruncate (batch : List BrowserFile) (start : Int) : List BrowserFile :=
  if 0 ≤ start then batch.take start.toNat
  else batch.take ((batch.length : Int) + start).toNat

/-- `handleUpload` of `part_001` (lines 144-172): when `maxImages` is
configured (JS truthy, so `some m` with `m ≠ 0`) and the batch would push the
total past it, the batch is truncated in place via
`fileArray.splice(maxImages - files.length)`; then one `uploading` entry per
accepted file is appended.  `freshIds` stands for the
`Date.now()`/`Math.random()` id synthesis, indexed by position in the batch. -/
def handleUpload (freshIds : Nat → String) (createURL : BrowserFile → String)
    (maxImages : Option Nat) (files : List UploadedFile) (batch : List BrowserFile) :
    List UploadedFile :=
  let fileArray :=
    match maxImages with
    | some m =>
        if m ≠ 0 ∧ m < files.length + batch.length then
          spliceTruncate batch ((m : Int) - (files.length : Int))
        else batch
    | none => batch
  files ++ fileArray.enum.map (fun p => mkNewEntry (freshIds p.1) (previewFor createURL p.2) p.2)

/-- The per-transfer progress callback (`part_001` lines 179-185): overwrite
the matching entry's `progress` with the reported percent, leave every other
entry alone. -/
def progressUpdate (files : List UploadedFile) (id : String) (p : Int) : List UploadedFile :=
  files.map fun f => if f.id = id then { f with progress := p } else f

/-- `uploadUrl.split("?")[0]` (`part_001` line 186): everything before the
first `?`, the whole string when there is none. -/
def stripQuery (s : String) : String := ⟨s.data.takeWhile (fun c => c != '?')⟩

/-- The success continuation of the upload pipeline (`part_001` lines
186-199): the matching entry gets the stripped public locator as both display
and delete locator, `isUploading := false`, `progress := 100`. -/
def uploadSuccessCont (files : List UploadedFile) (id : String) (uploadUrl : String) :
    List UploadedFile :=
  files.map fun f =>
    if f.id = id then
      { f with
        url := stripQuery uploadUrl
        deleteUrl := stripQuery uploadUrl
        isUploading := false
        progress := 100 }
    else f

/-- The catch branch shared by the slot-request (`generateSignedUrl`) and
byte-transfer (`uploadFileToSignedUrl`) stages (`part_001` lines 200-209):
drop the failing entry, keep everything else. -/
def uploadFailCont (files : List UploadedFile) (id : String) : List UploadedFile :=
  files.filter fun f => f.id != id

/-- `handleDeleteImage` of `part_001` (lines 217-240), one atomic event-loop
step.  First the `setFiles` updater: if no entry matches or the match is
already `isDeleting`, keep the state; otherwise mark the match deleting.
Then the handler body re-reads the list (`files.find`); when a match exists it
fires `deleteFile(match.deleteUrl)` — note it checks existence only, not
`isDeleting`.  Returns the new state and the locators passed to
`deleteFile`. -/
def handleDeleteImage (files : List UploadedFile) (id : String) :
    List UploadedFile × List String :=
  let files1 :=
    match files.find? (fun f => f.id == id) with
    | none => files
    | some f =>
        if f.isDeleting then files
        else files.map fun g => if g.id = id then { g with isDeleting := true } else g
  match files.find? (fun f => f.id == id) with
  | none => (files1, [])
  | some f => (files1, [f.deleteUrl])

/-- The `.then` continuation of `deleteFile` (`part_001` lines 229-231):
remove the entry; no further gateway call is issued. -/
def deleteSuccessCont (files : List UploadedFile) (id : String) :
    List UploadedFile × List String :=
  (files.filter fun f => f.id != id, [])

/-- The `.catch` continuation of `deleteFile` (`part_001` lines 232-237):
clear `isDeleting` on the entry, keep everything else; only `console.error`
and `setFiles` run, so no gateway call is issued (no auto-retry). -/
def deleteFailureCont (files : List UploadedFile) (id : String) :
    List UploadedFile × List String :=
  (files.map fun f => if f.id = id then { f with isDeleting := false } else f, [])

/-- The preview's delete affordance (`part_001` line 75): the delete button is
rendered only when an `onDelete` handler is wired and the entry is neither
uploading nor deleting, so the "delete requested" event can only fire then. -/
def showDeleteButton (hasHandler isUploading isDeleting : Bool) : Bool :=
  hasHandler && !isUploading && !isDeleting

/-- Embedding of the `/\.(jpeg|jpg|png|gif)$/i` test (`part_001` line 119):
the locator, lowercased character by character (the case-insensitive flag),
ends with one of the four extensions.  Stated on the character list so the
test stays kernel-computable. -/
def matchesImageExt (url : String) : Bool :=
  List.isSuffixOf ".jpeg".data (url.data.map Char.toLower) ||
  List.isSuffixOf ".jpg".data (url.data.map Char.toLower) ||
  List.isSuffixOf ".png".data (url.data.map Char.toLower) ||
  List.isSuffixOf ".gif".data (url.data.map Char.toLower)

/-- One entry of the controlled-mode rebuild (`part_001` lines 114-124):
id `index-Date.now()` (the `now` parameter), locator used for both display and
deletion, progress 100, resolved, and `fileType` `image/jpeg` whenever the
suffix regex matches (even for `.png`/`.gif`), else `application/octet-stream`. -/
def rebuildEntry (now : String) (i : Nat) (url : String) : UploadedFile :=
  { id := toString i ++ "-" ++ now
    url := url
    deleteUrl := url
    progress := 100
    fileType := if matchesImageExt url then "image/jpeg" else "application/octet-stream"
    isUploading := false
    isDeleting := false }

/-- `value.map((url, index) => ...)` of the value-sync effect (`part_001`
lines 114-124). -/
def rebuildFromValue (now : String) (value : List String) : List UploadedFile :=
  value.enum.map fun p => rebuildEntry now p.1 p.2

/-- The effect's change detector (`part_001` lines 103-104):
`JSON.stringify(value) !== JSON.stringify(prev)`.  `JSON.stringify` is
injective on `string[]` values (each element is emitted quoted with all
metacharacters escaped), so inequality of the serializations is exactly
inequality of the lists, which is how we embed the comparison. -/
def valueChanged (value prevRef : List String) : Bool := value != prevRef

/-- Ordered projection `files.map(f => f.url)` used by the outbound sync
(`part_001` line 135) and by the validation adapter. -/
def fileUrls (files : List UploadedFile) : List String :=
  files.map fun f => f.url

/-- The inbound value-sync effect (`part_001` lines 100-130): in controlled
mode, when the external value differs from the last synchronized value
(`prevValueRef`), rebuild the whole collection from it and record it in the
ref; otherwise leave both alone.  Returns (files, prevValueRef). -/
def valueSyncEffect (isControlled : Bool) (now : String) (value prevRef : List String)
    (files : List UploadedFile) : List UploadedFile × List String :=
  if !isControlled then (files, prevRef)
  else if valueChanged value prevRef then (rebuildFromValue now value, value)
  else (files, prevRef)

/-- The outbound sync effect (`part_001` lines 133-142): in controlled mode,
fire `onChange(fileUrls)` and update the ref only when the projection differs
from the last synchronized value.  Returns (emitted notification, ref). -/
def onChangeEffect (isControlled : Bool) (files : List UploadedFile) (prevRef : List String) :
    Option (List String) × List String :=
  if isControlled && valueChanged (fileUrls files) prevRef then
    (some (fileUrls files), fileUrls files)
  else (none, prevRef)

/-- One orchestrator step: a user batch selection, or one of the asynchronous
continuations of the per-file upload and delete pipelines of `part_001`. -/
inductive Step where
  | add (batch : List BrowserFile)
  | progress (id : String) (p : Int)
  | uploadOk (id : String) (target : String)
  | uploadFail (id : String)
  | deleteReq (id : String)
  | deleteOk (id : String)
  | deleteFail (id : String)

/-- Apply one step to the tracked collection (all `part_001` state
transitions; the gateway-call components are dropped, only the collection is
tracked here). -/
def applyStep (freshIds : Nat → String) (createURL : BrowserFile → String)
    (maxImages : Option Nat) (files : List UploadedFile) : Step → List UploadedFile
  | .add batch => handleUpload freshIds createURL maxImages files batch
  | .progress id p => progressUpdate files id p
  | .uploadOk id t => uploadSuccessCont files id t
  | .uploadFail id => uploadFailCont files id
  | .deleteReq id => (handleDeleteImage files id).1
  | .deleteOk id => (deleteSuccessCont files id).1
  | .deleteFail id => (deleteFailureCont files id).1

/-- Validation message for a violated minimum count
(`src/components/multi-image-upload.tsx` line 26). -/
def minMsg (n : Nat) : String := "At least " ++ toString n ++ " image(s) required"

/-- Validation message for a violated maximum count (line 28). -/
def maxMsg (n : Nat) : String := "At most " ++ toString n ++ " image(s) allowed"

/-- Element-level message of `z.string().url(...)` (line 25). -/
def invalidUrlMsg : String := "Invalid image URL"

/-- One zod issue, reduced to what the adapter reads: the message, and the
path (the offending element's index for element issues, none for the
array-level length issues). -/
structure ZodIssue where
  message : String
  path : Option Nat
  deriving DecidableEq

/-- `max ? base.max(max) : base` (lines 27-29): a JS-falsy maximum
(`undefined` or `0`) adds no maximum rule. -/
def effectiveMax (maxI : Option Nat) : Option Nat :=
  match maxI with
  | some m => if m = 0 then none else some m
  | none => none

/-- Issues produced by `ImagesSchema(min, max).safeParse(urls)` (lines 23-30).
zod v3's `ZodArray._parse` records the length issues first — the `.min` check
before the `.max` check — and then parses the elements in order, so element
(`url()`) issues follow in index order; `safeParse` exposes them in recording
order.  `isUrl` abstracts zod's `url()` well-formedness check (`new URL`
succeeding). -/
def zodIssues (isUrl : String → Bool) (minI : Nat) (maxI : Option Nat)
    (urls : List String) : List ZodIssue :=
  (if urls.length < minI then [{ message := minMsg minI, path := none }] else [])
    ++ (match effectiveMax maxI with
        | some m => if m < urls.length then [{ message := maxMsg m, path := none }] else []
        | none => [])
    ++ (urls.enum.filter (fun p => !isUrl p.2)).map
        (fun p => { message := invalidUrlMsg, path := some p.1 })

/-- The validation effect (`src/components/multi-image-upload.tsx` lines
104-112), recomputed whenever `files`, `minImages` or `maxImages` change:
`safeParse(files.map(f => f.url))`, then
`result.success ? "" : result.error.issues[0]?.message || ""`. -/
def validationMsg (isUrl : String → Bool) (minI : Nat) (maxI : Option Nat)
    (files : List UploadedFile) : String :=
  match zodIssues isUrl minI maxI (fileUrls files) with
  | [] => ""
  | issue :: _ => issue.message

/-- Settled locators: the projection of the entries that are not in-flight
(phase resolved), used below to state the spec's reading of the minimum-count
rule. -/
def settledUrls (files : List UploadedFile) : List String :=
  (files.filter fun f => !f.isUploading).map fun f => f.url

/-- The claim's reading of the validation adapter, for comparison with
`validationMsg`: the same rules evaluated against settled (resolved) locators
only. -/
def validationMsgSettledReading (isUrl : String → Bool) (minI : Nat) (maxI : Option Nat)
    (files : List UploadedFile) : String :=
  match zodIssues isUrl minI maxI (settledUrls files) with
  | [] => ""
  | issue :: _ => issue.message

/-- A concrete stand-in for zod's `url()` check used in closed instances: a
locator is accepted when it carries a scheme separator.  zod's check is
`new URL(data)` succeeding, which accepts any scheme-prefixed string,
including `blob:` object URLs. -/
def colonCheck (s : String) : Bool := s.data.any fun c => c == ':'

/-! Helper lemmas. -/

/-- Length bookkeeping for `handleUpload` when the maximum is configured and
the current count respects it: the result holds `min (old + batch) max`
entries. -/
lemma handleUpload_length (freshIds : Nat → String) (createURL : BrowserFile → String)
    {m : Nat} (hm : 0 < m) (files : List UploadedFile) (batch : List BrowserFile)
    (h : files.length ≤ m) :
    (handleUpload freshIds createURL (some m) files batch).length
      = min (files.length + batch.length) m := by
  have hdef : handleUpload freshIds createURL (some m) files batch
      = files ++ (if m ≠ 0 ∧ m < files.length + batch.length then
            spliceTruncate batch ((m : Int) - (files.length : Int)) else batch).enum.map
          (fun p => mkNewEntry (freshIds p.1) (previewFor createURL p.2) p.2) := rfl
  rw [hdef]
  by_cases hc : m ≠ 0 ∧ m < files.length + batch.length
  · have h0 : (0 : Int) ≤ (m : Int) - (files.length : Int) := by omega
    rw [if_pos hc]
    simp only [spliceTruncate, if_pos h0, List.length_append, List.length_map,
      List.enum_length, List.length_take]
    omega
  · rw [if_neg hc]
    simp only [List.length_append, List.length_map, List.enum_length]
    omega

/-- The deletion request step never changes the number of tracked entries. -/
lemma handleDeleteImage_fst_length (files : List UploadedFile) (id : String) :
    (handleDeleteImage files id).1.length = files.length := by
  unfold handleDeleteImage
  cases h : files.find? (fun f => f.id == id) with
  | none => simp
  | some f =>
      by_cases hd : f.isDeleting <;> simp [hd]

/-- Every orchestrator step preserves the maximum-count bound. -/
lemma applyStep_length_le (freshIds : Nat → String) (createURL : BrowserFile → String)
    {m : Nat} (hm : 0 < m) (files : List UploadedFile) (st : Step)
    (h : files.length ≤ m) :
    (applyStep freshIds createURL (some m) files st).length ≤ m := by
  cases st with
  | add batch =>
      have := handleUpload_length freshIds createURL hm files batch h
      simp only [applyStep, this]
      omega
  | progress id p => simpa [applyStep, progressUpdate] using h
  | uploadOk id t => simpa [applyStep, uploadSuccessCont] using h
  | uploadFail id =>
      calc (uploadFailCont files id).length ≤ files.length := List.length_filter_le _ _
        _ ≤ m := h
  | deleteReq id => simpa [applyStep, handleDeleteImage_fst_length] using h
  | deleteOk id =>
      calc (deleteSuccessCont files id).1.length ≤ files.length := List.length_filter_le _ _
        _ ≤ m := h
  | deleteFail id => simpa [applyStep, deleteFailureCont] using h

/-- Claim C1: with a configured maximum `m > 0`, no sequence of orchestrator
steps — in particular no sequence of `addFiles` batches — ever leaves more
than `m` tracked entries, and a batch that would overflow is truncated so that
exactly `m` entries are tracked afterwards. -/
theorem c1_add_never_exceeds_max (freshIds : Nat → String) (createURL : BrowserFile → String)
    (m : Nat) (hm : 0 < m) (trace : List Step) :
    (trace.foldl (applyStep freshIds createURL (some m)) []).length ≤ m
      ∧ ∀ files batch, files.length ≤ m → m < files.length + batch.length →
          (handleUpload freshIds createURL (some m) files batch).length = m := by
  constructor
  · suffices hfold : ∀ (tr : List Step) (fs : List UploadedFile), fs.length ≤ m →
        (tr.foldl (applyStep freshIds createURL (some m)) fs).length ≤ m by
      exact hfold trace [] (by simp)
    intro tr
    induction tr with
    | nil => intro fs hfs; simpa using hfs
    | cons s ts ih =>
        intro fs hfs
        exact ih _ (applyStep_length_le freshIds createURL hm fs s hfs)
  · intro files batch h1 h2
    have := handleUpload_length freshIds createURL hm files batch h1
    omega

/-- A concrete id synthesizer standing in for `Date.now()`/`Math.random()`. -/
def demoIds : Nat → String := fun n => toString n

/-- A concrete `URL.createObjectURL` stand-in. -/
def demoURL : BrowserFile → String := fun f => "blob:" ++ f.name

/-- A six-file selection. -/
def demoBatch : List BrowserFile :=
  [{ name := "a", fileType := "image/png" }, { name := "b", fileType := "image/png" },
   { name := "c", fileType := "image/png" }, { name := "d", fileType := "image/png" },
   { name := "e", fileType := "image/png" }, { name := "f", fileType := "image/png" }]

/-- Witness for C1: adding six files in one batch with `maxImages = 5` leaves
exactly five tracked entries. -/
theorem c1_add_never_exceeds_max_witness :
    0 < 5
      ∧ (([Step.add demoBatch].foldl (applyStep demoIds demoURL (some 5)) []).length ≤ 5
          ∧ ∀ files batch, files.length ≤ 5 → 5 < files.length + batch.length →
              (handleUpload demoIds demoURL (some 5) files batch).length = 5)
      ∧ ([Step.add demoBatch].foldl (applyStep demoIds demoURL (some 5)) []).length = 5 :=
  ⟨by decide, c1_add_never_exceeds_max demoIds demoURL 5 (by decide) [Step.add demoBatch],
    by rfl⟩

/-- The suffix removed by `stripQuery` starts with `?` when non-empty. -/
lemma dropWhile_query_head (l : List Char) (c : Char) (cs : List Char)
    (h : l.dropWhile (fun c => c != '?') = c :: cs) : c = '?' := by
  induction l with
  | nil => simp at h
  | cons a l ih =>
      by_cases ha : a = '?'
      · rw [List.dropWhile_cons] at h
        simp [ha] at h
        exact h.1.symm
      · rw [List.dropWhile_cons] at h
        simp [ha] at h
        exact ih h

/-- Claim C2: when an entry's upload pipeline completes with upload target
`t`, the entry afterwards has `deleteUrl = url`, both equal to `t` with its
query component stripped, and `isUploading = false` with `progress = 100`.
The last two conjuncts characterize the stripping: the resolved locator is a
`?`-free prefix of `t`, and the removed remainder is empty or starts at the
first `?`. -/
theorem c2_success_resolves (files : List UploadedFile) (id t : String)
    (f : UploadedFile) (hf : f ∈ uploadSuccessCont files id t) (hid : f.id = id) :
    f.deleteUrl = f.url ∧ f.url = stripQuery t ∧ f.isUploading = false ∧ f.progress = 100
      ∧ '?' ∉ (stripQuery t).data
      ∧ (stripQuery t).data ++ t.data.dropWhile (fun c => c != '?') = t.data
      ∧ ∀ c cs, t.data.dropWhile (fun c => c != '?') = c :: cs → c = '?' := by
  have hchar : '?' ∉ (stripQuery t).data := by
    intro hmem
    have := List.mem_takeWhile_imp hmem
    simp at this
  have happ : (stripQuery t).data ++ t.data.dropWhile (fun c => c != '?') = t.data := by
    show t.data.takeWhile (fun c => c != '?') ++ t.data.dropWhile (fun c => c != '?') = t.data
    exact List.takeWhile_append_dropWhile _ _
  rcases List.mem_map.mp hf with ⟨g, hg, hEq⟩
  by_cases hgid : g.id = id
  · have hEq2 : { g with
        url := stripQuery t, deleteUrl := stripQuery t,
        isUploading := false, progress := 100 } = f := by
      rw [← hEq]
      simp [hgid]
    subst hEq2
    exact ⟨rfl, rfl, rfl, rfl, hchar, happ, fun c cs h => dropWhile_query_head t.data c cs h⟩
  · have hEq2 : g = f := by
      rw [← hEq]
      simp [hgid]
    subst hEq2
    exact absurd hid hgid

/-- A resolved sample entry. -/
def sampleResolved : UploadedFile :=
  { id := "a", url := "https://bucket/x.png", deleteUrl := "https://bucket/x.png",
    progress := 100, fileType := "image/png", isUploading := false, isDeleting := false }

/-- An in-flight sample entry (phase uploading, transient preview locator,
empty delete locator). -/
def sampleUploading : UploadedFile :=
  { id := "a", url := "blob:a", deleteUrl := "", progress := 37,
    fileType := "image/png", isUploading := true, isDeleting := false }

/-- Witness for C2 at the spec's own example: slot target
`https://bucket/x.png?sig=abc&exp=123` resolves to locator
`https://bucket/x.png`. -/
theorem c2_success_resolves_witness :
    sampleResolved ∈ uploadSuccessCont [sampleUploading] "a" "https://bucket/x.png?sig=abc&exp=123"
      ∧ sampleResolved.id = "a"
      ∧ (sampleResolved.deleteUrl = sampleResolved.url
          ∧ sampleResolved.url = stripQuery "https://bucket/x.png?sig=abc&exp=123"
          ∧ sampleResolved.isUploading = false ∧ sampleResolved.progress = 100
          ∧ '?' ∉ (stripQuery "https://bucket/x.png?sig=abc&exp=123").data
          ∧ (stripQuery "https://bucket/x.png?sig=abc&exp=123").data
              ++ ("https://bucket/x.png?sig=abc&exp=123" : String).data.dropWhile (fun c => c != '?')
              = ("https://bucket/x.png?sig=abc&exp=123" : String).data
          ∧ ∀ c cs,
              ("https://bucket/x.png?sig=abc&exp=123" : String).data.dropWhile (fun c => c != '?')
                = c :: cs → c = '?') :=
  ⟨by decide, rfl,
    c2_success_resolves [sampleUploading] "a" "https://bucket/x.png?sig=abc&exp=123"
      sampleResolved (by decide) rfl⟩

/-- A sample entry already in phase `deleting`. -/
def sampleDeleting : UploadedFile :=
  { id := "a", url := "https://bucket/x.png", deleteUrl := "https://bucket/x.png",
    progress := 100, fileType := "image/png", isUploading := false, isDeleting := true }

/-- Claim C3 (failing evaluation): a delete request for an entry already in
phase `deleting` leaves the state unchanged — the updater's guard works — but
the handler still finds the entry by id alone and fires `deleteFile` with its
locator a second time, because the existence check before the gateway call
does not consult `isDeleting`. -/
theorem c3_second_delete_calls_backend :
    handleDeleteImage [sampleDeleting] "a"
      = ([sampleDeleting], ["https://bucket/x.png"])
      ∧ ["https://bucket/x.png"] ≠ ([] : List String) := by
  exact ⟨by decide, by decide⟩

/-- Claim C4: a delete request whose id matches no tracked entry changes
nothing and issues no gateway call; and the preview's delete-requested event —
the only source of delete requests — cannot fire at all for an entry that is
uploading or deleting, since the delete button is only rendered when both
flags are clear. -/
theorem c4_delete_guard (files : List UploadedFile) (id : String)
    (h : files.find? (fun f => f.id == id) = none) (u d : Bool)
    (hs : showDeleteButton true u d = true) :
    handleDeleteImage files id = (files, []) ∧ u = false ∧ d = false := by
  refine ⟨?_, ?_, ?_⟩
  · unfold handleDeleteImage
    rw [h]
  · simp [showDeleteButton] at hs
    exact hs.1
  · simp [showDeleteButton] at hs
    exact hs.2

/-- Witness for C4: deleting an unknown id in a one-entry collection is a
no-op with no gateway call, and the delete affordance condition forces both
flags clear. -/
theorem c4_delete_guard_witness :
    [sampleResolved].find? (fun f => f.id == "zzz") = none
      ∧ showDeleteButton true false false = true
      ∧ (handleDeleteImage [sampleResolved] "zzz" = ([sampleResolved], [])
          ∧ false = false ∧ false = false) :=
  ⟨by decide, by decide,
    c4_delete_guard [sampleResolved] "zzz" (by decide) false false (by decide)⟩

/-- Claim C5: resolving a delete on entry `id` — success removes exactly that
entry (every other entry survives untouched, and no entry with the id
remains); failure keeps every entry, clearing only the target's `isDeleting`
flag; neither continuation issues any further gateway call (no auto-retry). -/
theorem c5_delete_resolution (files : List UploadedFile) (id : String)
    (f : UploadedFile) (hf : f ∈ files) :
    (∀ g ∈ (deleteSuccessCont files id).1, g.id ≠ id)
      ∧ (f.id ≠ id → f ∈ (deleteSuccessCont files id).1 ∧ f ∈ (deleteFailureCont files id).1)
      ∧ (f.id = id → f ∉ (deleteSuccessCont files id).1
            ∧ { f with isDeleting := false } ∈ (deleteFailureCont files id).1)
      ∧ (deleteSuccessCont files id).2 = [] ∧ (deleteFailureCont files id).2 = [] := by
  refine ⟨?_, ?_, ?_, rfl, rfl⟩
  · intro g hgmem
    have := (List.mem_filter.mp hgmem).2
    simpa using this
  · intro hne
    constructor
    · exact List.mem_filter.mpr ⟨hf, by simpa using hne⟩
    · exact List.mem_map.mpr ⟨f, hf, by simp [hne]⟩
  · intro heq
    constructor
    · intro hmem
      have := (List.mem_filter.mp hmem).2
      simp [heq] at this
    · exact List.mem_map.mpr ⟨f, hf, by simp [heq]⟩

/-- Witness for C5 on a two-entry collection: success removes the deleting
entry and keeps the other; failure keeps both, un-marking only the target. -/
theorem c5_delete_resolution_witness :
    sampleDeleting ∈ [sampleDeleting, { sampleResolved with id := "b" }]
      ∧ ((∀ g ∈ (deleteSuccessCont [sampleDeleting, { sampleResolved with id := "b" }] "a").1,
            g.id ≠ "a")
          ∧ (sampleDeleting.id ≠ "a" →
              sampleDeleting ∈ (deleteSuccessCont [sampleDeleting, { sampleResolved with id := "b" }] "a").1
                ∧ sampleDeleting ∈ (deleteFailureCont [sampleDeleting, { sampleResolved with id := "b" }] "a").1)
          ∧ (sampleDeleting.id = "a" →
              sampleDeleting ∉ (deleteSuccessCont [sampleDeleting, { sampleResolved with id := "b" }] "a").1
                ∧ { sampleDeleting with isDeleting := false }
                    ∈ (deleteFailureCont [sampleDeleting, { sampleResolved with id := "b" }] "a").1)
          ∧ (deleteSuccessCont [sampleDeleting, { sampleResolved with id := "b" }] "a").2 = []
          ∧ (deleteFailureCont [sampleDeleting, { sampleResolved with id := "b" }] "a").2 = []) :=
  ⟨by decide,
    c5_delete_resolution [sampleDeleting, { sampleResolved with id := "b" }] "a"
      sampleDeleting (by decide)⟩

/-- A sample entry halfway through its transfer. -/
def sampleHalfway : UploadedFile :=
  { id := "a", url := "blob:a", deleteUrl := "", progress := 50,
    fileType := "image/png", isUploading := true, isDeleting := false }

/-- Claim C6 (counterexample): the progress callback applies the reported
percent verbatim.  A callback reporting 10 to an entry currently at 50 stores
10 — a regression, not a no-op — and a callback reporting 150 stores 150 —
out of range, not clamped. -/
theorem c6_progress_counterexample :
    progressUpdate [sampleHalfway] "a" 10 ≠ [sampleHalfway]
      ∧ progressUpdate [sampleHalfway] "a" 10 = [{ sampleHalfway with progress := 10 }]
      ∧ progressUpdate [sampleHalfway] "a" 150 = [{ sampleHalfway with progress := 150 }]
      ∧ (10 : Int) < 50 ∧ (100 : Int) < 150 := by
  exact ⟨by decide, by decide, by decide, by decide, by decide⟩

/-- Claim C6 (amended): a progress callback for entry `id` overwrites that
entry's `progressPercent` with the reported value as-is — it is not clamped to
[0,100] and a lower value is not ignored — and leaves every other entry
unchanged. -/
theorem c6_progress_overwrite (files : List UploadedFile) (id : String) (p : Int)
    (f : UploadedFile) (hf : f ∈ files) :
    (f.id = id → { f with progress := p } ∈ progressUpdate files id p)
      ∧ (f.id ≠ id → f ∈ progressUpdate files id p)
      ∧ (progressUpdate files id p).length = files.length := by
  refine ⟨?_, ?_, by simp [progressUpdate]⟩
  · intro heq
    exact List.mem_map.mpr ⟨f, hf, by simp [heq]⟩
  · intro hne
    exact List.mem_map.mpr ⟨f, hf, by simp [hne]⟩

/-- Witness for the amended C6: a callback reporting 10 against a two-entry
collection rewrites the matching entry to 10 and keeps the other entry. -/
theorem c6_progress_overwrite_witness :
    sampleHalfway ∈ [sampleHalfway, { sampleResolved with id := "b" }]
      ∧ ((sampleHalfway.id = "a" →
            { sampleHalfway with progress := 10 }
              ∈ progressUpdate [sampleHalfway, { sampleResolved with id := "b" }] "a" 10)
          ∧ (sampleHalfway.id ≠ "a" →
              sampleHalfway ∈ progressUpdate [sampleHalfway, { sampleResolved with id := "b" }] "a" 10)
          ∧ (progressUpdate [sampleHalfway, { sampleResolved with id := "b" }] "a" 10).length
              = [sampleHalfway, { sampleResolved with id := "b" }].length) :=
  ⟨by decide,
    c6_progress_overwrite [sampleHalfway, { sampleResolved with id := "b" }] "a" 10
      sampleHalfway (by decide)⟩

/-- Claim C7: in controlled mode, when the externally supplied value equals
the last synchronized value (list equality, i.e. `JSON.stringify` equality on
`string[]`), the inbound sync effect rebuilds nothing and leaves the ref
alone; and in the synchronized state the outbound effect emits no `onChange`
notification — so an equal external update produces no cycle. -/
theorem c7_no_sync_cycle (now : String) (value prevRef : List String)
    (files : List UploadedFile) (h1 : value = prevRef) (h2 : fileUrls files = prevRef) :
    valueSyncEffect true now value prevRef files = (files, prevRef)
      ∧ onChangeEffect true files prevRef = (none, prevRef) := by
  constructor
  · simp [valueSyncEffect, valueChanged, h1]
  · simp [onChangeEffect, valueChanged, h2]

/-- Witness for C7: a one-entry synchronized state receiving an equal
external value. -/
theorem c7_no_sync_cycle_witness :
    (["https://bucket/x.png"] : List String) = ["https://bucket/x.png"]
      ∧ fileUrls [sampleResolved] = ["https://bucket/x.png"]
      ∧ (valueSyncEffect true "0" ["https://bucket/x.png"] ["https://bucket/x.png"] [sampleResolved]
            = ([sampleResolved], ["https://bucket/x.png"])
          ∧ onChangeEffect true [sampleResolved] ["https://bucket/x.png"]
            = (none, ["https://bucket/x.png"])) :=
  ⟨rfl, by decide,
    c7_no_sync_cycle "0" ["https://bucket/x.png"] ["https://bucket/x.png"] [sampleResolved]
      rfl (by decide)⟩

/-- Claim C8: when an entry's slot request or byte transfer fails, the shared
catch branch removes exactly that entry: no entry with the failing id
survives, and every other entry — in particular a concurrently uploading one —
is still present with all its fields (phase, progress) untouched. -/
theorem c8_failure_removes_only_target (files : List UploadedFile) (id : String)
    (f : UploadedFile) (hf : f ∈ files) :
    (∀ g ∈ uploadFailCont files id, g.id ≠ id)
      ∧ (f.id ≠ id → f ∈ uploadFailCont files id)
      ∧ (f.id = id → f ∉ uploadFailCont files id) := by
  refine ⟨?_, ?_, ?_⟩
  · intro g hg
    have := (List.mem_filter.mp hg).2
    simpa using this
  · intro hne
    exact List.mem_filter.mpr ⟨hf, by simpa using hne⟩
  · intro heq hmem
    have := (List.mem_filter.mp hmem).2
    simp [heq] at this

/-- Witness for C8: entry `a` fails while entry `b` is mid-upload; `a` is
gone, `b` survives with its progress intact. -/
theorem c8_failure_removes_only_target_witness :
    { sampleHalfway with id := "b" } ∈ [sampleUploading, { sampleHalfway with id := "b" }]
      ∧ ((∀ g ∈ uploadFailCont [sampleUploading, { sampleHalfway with id := "b" }] "a",
            g.id ≠ "a")
          ∧ ({ sampleHalfway with id := "b" }.id ≠ "a" →
              { sampleHalfway with id := "b" }
                ∈ uploadFailCont [sampleUploading, { sampleHalfway with id := "b" }] "a")
          ∧ ({ sampleHalfway with id := "b" }.id = "a" →
              { sampleHalfway with id := "b" }
                ∉ uploadFailCont [sampleUploading, { sampleHalfway with id := "b" }] "a")) :=
  ⟨by decide,
    c8_failure_removes_only_target [sampleUploading, { sampleHalfway with id := "b" }] "a"
      { sampleHalfway with id := "b" } (by decide)⟩

/-- The first element-level issue reports the first ill-formed locator in
insertion order: its path is the offset plus `findIdx` of the first rejected
element. -/
lemma elemIssues_head (isUrl : String → Bool) :
    ∀ (n : Nat) (urls : List String), (∃ u ∈ urls, isUrl u = false) →
      (((urls.enumFrom n).filter (fun p => !isUrl p.2)).map
          (fun p => ({ message := invalidUrlMsg, path := some p.1 } : ZodIssue))).head?
        = some { message := invalidUrlMsg,
                 path := some (n + urls.findIdx (fun u => !isUrl u)) } := by
  intro n urls
  induction urls generalizing n with
  | nil => intro h; simp at h
  | cons u us ih =>
      intro h
      cases hu : isUrl u with
      | false =>
          simp [List.enumFrom_cons, List.filter_cons, hu, List.findIdx_cons]
      | true =>
          have hex : ∃ v ∈ us, isUrl v = false := by
            rcases h with ⟨v, hv, hvf⟩
            rcases List.mem_cons.mp hv with rfl | hv2
            · rw [hu] at hvf; cases hvf
            · exact ⟨v, hv2, hvf⟩
          have harith : n + 1 + us.findIdx (fun u => !isUrl u)
              = n + (us.findIdx (fun u => !isUrl u) + 1) := by omega
          simp [List.enumFrom_cons, List.filter_cons, hu, List.findIdx_cons,
            ih (n + 1) hex, harith]

/-- Claim C9 (amended): the validation adapter — recomputed on every state
change — evaluates the count rules against the display locators of all
tracked entries and yields either no message or exactly the first violated
rule's message, minimum-count before maximum-count before malformed-locator,
the latter reported (as the first issue, carrying its index as the path) for
the first offending locator in insertion order.  `isUrl` abstracts zod's
`url()` well-formedness check. -/
theorem c9_validation (isUrl : String → Bool) (minI : Nat) (maxI : Option Nat)
    (files : List UploadedFile) :
    ((fileUrls files).length < minI → validationMsg isUrl minI maxI files = minMsg minI)
      ∧ (∀ m, minI ≤ (fileUrls files).length → effectiveMax maxI = some m →
            m < (fileUrls files).length → validationMsg isUrl minI maxI files = maxMsg m)
      ∧ (minI ≤ (fileUrls files).length →
          (∀ m, effectiveMax maxI = some m → (fileUrls files).length ≤ m) →
          (∃ u ∈ fileUrls files, isUrl u = false) →
          validationMsg isUrl minI maxI files = invalidUrlMsg
            ∧ (zodIssues isUrl minI maxI (fileUrls files)).head?
                = some { message := invalidUrlMsg,
                         path := some ((fileUrls files).findIdx (fun u => !isUrl u)) })
      ∧ (minI ≤ (fileUrls files).length →
          (∀ m, effectiveMax maxI = some m → (fileUrls files).length ≤ m) →
          (∀ u ∈ fileUrls files, isUrl u = true) →
          validationMsg isUrl minI maxI files = "") := by
  refine ⟨?_, ?_, ?_, ?_⟩
  · intro h
    simp [validationMsg, zodIssues, h]
  · intro m h1 hm h2
    have hnot : ¬ ((fileUrls files).length < minI) := Nat.not_lt.mpr h1
    simp [validationMsg, zodIssues, hnot, hm, h2]
  · intro h1 hmax hex
    have hnot : ¬ ((fileUrls files).length < minI) := Nat.not_lt.mpr h1
    have hcomp2 : (match effectiveMax maxI with
        | some m => if m < (fileUrls files).length
            then [({ message := maxMsg m, path := none } : ZodIssue)] else []
        | none => ([] : List ZodIssue)) = [] := by
      cases hm : effectiveMax maxI with
      | none => rfl
      | some m => simp [Nat.not_lt.mpr (hmax m hm)]
    have hiss : zodIssues isUrl minI maxI (fileUrls files)
        = ((fileUrls files).enum.filter (fun p => !isUrl p.2)).map
            (fun p => ({ message := invalidUrlMsg, path := some p.1 } : ZodIssue)) := by
      simp [zodIssues, hnot, hcomp2]
    have hhead := elemIssues_head isUrl 0 (fileUrls files) hex
    have henum : (fileUrls files).enumFrom 0 = (fileUrls files).enum := rfl
    rw [henum] at hhead
    simp only [Nat.zero_add] at hhead
    constructor
    · rw [validationMsg, hiss]
      cases helems : ((fileUrls files).enum.filter (fun p => !isUrl p.2)).map
          (fun p => ({ message := invalidUrlMsg, path := some p.1 } : ZodIssue)) with
      | nil => rw [helems] at hhead; simp at hhead
      | cons issue rest =>
          rw [helems] at hhead
          simp only [List.head?_cons, Option.some.injEq] at hhead
          rw [hhead]
    · rw [hiss]
      exact hhead
  · intro h1 hmax hall
    have hnot : ¬ ((fileUrls files).length < minI) := Nat.not_lt.mpr h1
    have hcomp2 : (match effectiveMax maxI with
        | some m => if m < (fileUrls files).length
            then [({ message := maxMsg m, path := none } : ZodIssue)] else []
        | none => ([] : List ZodIssue)) = [] := by
      cases hm : effectiveMax maxI with
      | none => rfl
      | some m => simp [Nat.not_lt.mpr (hmax m hm)]
    have hsnd : ∀ p ∈ (fileUrls files).enum, p.2 ∈ fileUrls files := by
      intro p hp
      have := List.mem_map_of_mem Prod.snd hp
      rwa [List.enum_map_snd] at this
    have hfilter : (fileUrls files).enum.filter (fun p => !isUrl p.2) = [] := by
      rw [List.filter_eq_nil_iff]
      intro p hp
      simp [hall p.2 (hsnd p hp)]
    simp [validationMsg, zodIssues, hnot, hcomp2, hfilter]

/-- Witness for the amended C9: no settled or in-flight locator at all with
`minImages = 1` yields the minimum-count message. -/
theorem c9_validation_witness :
    (fileUrls ([] : List UploadedFile)).length < 1
      ∧ validationMsg colonCheck 1 none [] = minMsg 1 :=
  ⟨by decide, (c9_validation colonCheck 1 none []).1 (by decide)⟩

/-- Claim C9 (counterexample): the adapter validates the locators of all
tracked entries, not settled ones only.  With `minImages = 1` and a single
in-flight entry whose display locator is its `blob:` preview, the code
reports no violation — the preview counts toward the minimum and passes the
URL check — whereas the claim's settled-only reading reports the
minimum-count message. -/
theorem c9_settled_only_counterexample :
    validationMsg colonCheck 1 none [sampleUploading] = ""
      ∧ validationMsgSettledReading colonCheck 1 none [sampleUploading] = minMsg 1
      ∧ minMsg 1 ≠ "" := by
  exact ⟨by decide, by decide, by decide⟩

/-- Claim C10: every entry rebuilt from the external value list carries the
locator as both display and delete reference, progress 100, resolved phase,
and a `fileType` of exactly `image/jpeg` when the locator ends in
`.jpeg`/`.jpg`/`.png`/`.gif` case-insensitively (so `.png` and `.gif`
locators are also labelled `image/jpeg`) and `application/octet-stream`
otherwise. -/
theorem c10_rebuild_entry_shape (now : String) (value : List String) (i : Nat) (url : String)
    (h : value[i]? = some url) :
    ∃ e, (rebuildFromValue now value)[i]? = some e
      ∧ e.url = url ∧ e.deleteUrl = url ∧ e.progress = 100
      ∧ e.isUploading = false ∧ e.isDeleting = false
      ∧ (matchesImageExt url = true → e.fileType = "image/jpeg")
      ∧ (matchesImageExt url = false → e.fileType = "application/octet-stream") := by
  refine ⟨rebuildEntry now i url, ?_, rfl, rfl, rfl, rfl, rfl, ?_, ?_⟩
  · simp [rebuildFromValue, List.getElem?_map, List.getElem?_enum, h]
  · intro hm
    simp [rebuildEntry, hm]
  · intro hm
    simp [rebuildEntry, hm]

/-- Witness for C10: an uppercase `.PNG` locator is rebuilt as a resolved
entry labelled `image/jpeg`. -/
theorem c10_rebuild_entry_shape_witness :
    (["https://bucket/x.PNG"] : List String)[0]? = some "https://bucket/x.PNG"
      ∧ (∃ e, (rebuildFromValue "7" ["https://bucket/x.PNG"])[0]? = some e
          ∧ e.url = "https://bucket/x.PNG" ∧ e.deleteUrl = "https://bucket/x.PNG"
          ∧ e.progress = 100 ∧ e.isUploading = false ∧ e.isDeleting = false
          ∧ (matchesImageExt "https://bucket/x.PNG" = true → e.fileType = "image/jpeg")
          ∧ (matchesImageExt "https://bucket/x.PNG" = false →
              e.fileType = "application/octet-stream"))
      ∧ (rebuildFromValue "7" ["https://bucket/x.PNG"]).map (fun e => e.fileType)
          = ["image/jpeg"] :=
  ⟨rfl, c10_rebuild_entry_shape "7" ["https://bucket/x.PNG"] 0 "https://bucket/x.PNG" rfl,
    by decide⟩

end MultiImageUpload
